import Mathlib

/-!
Verification of the social-bot generation service (`22-tenten-ai`).

The development shallowly embeds the three source files:
* `src/services/bot_posts_service.py` (`BotPostsService.clean_response`,
  `BotPostsService.generate_bot_post`),
* `src/services/bot_chats_service.py` (`BotChatsService.generate_bot_chat`),
* `src/models/koalpha_loader.py` (`KoalphaLoader.get_response`).

Python strings are embedded as `List Char` (wrapped into `String` at the
boundary); Python dicts with fixed keys become structures with `Option`
fields for keys that may be absent; a Python call that may raise an
exception is embedded as `Except PyExc _`.
-/

/-! ## Text cleaning: `BotPostsService.clean_response`

Source (`src/services/bot_posts_service.py`, lines 29-37):
```
def clean_response(self, text):
    if ':' in text:
        text = text.split(':', 1)[1]
    text = re.sub(r'\[.*?\]', '', text)
    text = re.sub(r'\s+', ' ', text)
    return text.strip()
```
-/

/-- Python `\s` whitespace test, restricted to the ASCII whitespace
characters `[ \t\n\r\x0b\x0c]`; Python's `\s` on `str` is Unicode-aware,
and the extra Unicode space characters play no role in the texts handled
here. Used both by `re.sub(r'\s+', ' ', ...)` and by `str.strip()`. -/
def isWs (c : Char) : Bool :=
  c = ' ' || c = '\t' || c = '\n' || c = '\r' || c = '\x0b' || c = '\x0c'

/-- `text.split(':', 1)[1]`: the suffix after the first `':'`. -/
def dropThroughColon : List Char → List Char
  | [] => []
  | c :: cs => if c = ':' then cs else dropThroughColon cs

/-- `if ':' in text: text = text.split(':', 1)[1]` — when a colon is
present, drop everything up to and including the first colon; otherwise
leave the text unchanged. -/
def colonStrip (s : List Char) : List Char :=
  if ':' ∈ s then dropThroughColon s else s

/-- One left-to-right pass of `re.sub(r'\[.*?\]', '', text)`.

The first argument is the scanning state: `none` while outside any
candidate match; `some buf` after an `'['` has been read, with `buf`
holding (reversed) the characters read since that `'['`.  A candidate
closes at the first `']'` (non-greedy `.*?`), fails at `'\n'` (Python's
`.` does not match a newline) and fails at end of input; a failed
candidate is emitted verbatim, exactly as `re.sub` leaves an unmatched
position untouched and moves on. -/
def removeBracketsAux : Option (List Char) → List Char → List Char
  | none, [] => []
  | none, c :: cs =>
    if c = '[' then removeBracketsAux (some []) cs
    else c :: removeBracketsAux none cs
  | some buf, [] => '[' :: buf.reverse
  | some buf, c :: cs =>
    if c = ']' then removeBracketsAux none cs
    else if c = '\n' then ('[' :: buf.reverse) ++ '\n' :: removeBracketsAux none cs
    else removeBracketsAux (some (c :: buf)) cs

/-- `re.sub(r'\[.*?\]', '', text)`: delete every non-overlapping,
non-greedy bracketed span. -/
def removeBrackets (s : List Char) : List Char :=
  removeBracketsAux none s

/-- `re.sub(r'\s+', ' ', text)`: replace every maximal run of whitespace
characters by a single space.  A whitespace character emits the single
`' '` only when the run ends (next character is non-whitespace or end of
input). -/
def collapseWs : List Char → List Char
  | [] => []
  | [c] => if isWs c then [' '] else [c]
  | c :: d :: rest =>
    if isWs c then
      if isWs d then collapseWs (d :: rest)
      else ' ' :: collapseWs (d :: rest)
    else c :: collapseWs (d :: rest)

/-- `str.strip()`: drop leading and trailing whitespace. -/
def stripWs (s : List Char) : List Char :=
  ((s.dropWhile isWs).reverse.dropWhile isWs).reverse

/-- The body of `clean_response` on character lists: colon strip, then
bracket removal, then whitespace collapse, then strip. -/
def clean (s : List Char) : List Char :=
  stripWs (collapseWs (removeBrackets (colonStrip s)))

/-- `BotPostsService.clean_response` on `String`. -/
def clean_response (s : String) : String :=
  String.mk (clean s.data)

/-! ## Normal forms of the whitespace rules

`collapseWs` outputs are *collapsed*: every whitespace character is a
plain space and no two adjacent characters are both whitespace.  A
collapsed list is a fixed point of `collapseWs`, and stripping preserves
collapsedness; together with idempotence of `stripWs` this pins down when
a second `clean` pass is a no-op. -/

/-- No two adjacent whitespace characters. -/
def wsR (c d : Char) : Prop := ¬(isWs c = true ∧ isWs d = true)

/-- Output invariant of `collapseWs`: whitespace only as `' '`, never two
adjacent whitespace characters. -/
def Collapsed (s : List Char) : Prop :=
  (∀ c ∈ s, isWs c = true → c = ' ') ∧ s.Chain' wsR

theorem collapseWs_cons_of_not_ws {c : Char} (h : isWs c = false) (t : List Char) :
    collapseWs (c :: t) = c :: collapseWs t := by
  cases t with
  | nil => simp [collapseWs, h]
  | cons d rest => simp [collapseWs, h]

theorem mem_collapseWs_ws (s : List Char) : ∀ c ∈ collapseWs s, isWs c = true → c = ' ' := by
  induction s with
  | nil => simp [collapseWs]
  | cons c t ih =>
    cases t with
    | nil =>
      by_cases hc : isWs c
      · simp [collapseWs, hc]
      · simp only [collapseWs, if_neg hc]
        intro x hx hw
        simp only [List.mem_singleton] at hx
        subst hx
        exact absurd hw hc
    | cons d rest =>
      by_cases hc : isWs c
      · by_cases hd : isWs d
        · simpa [collapseWs, hc, hd] using ih
        · simp only [collapseWs, if_pos hc, if_neg hd]
          intro x hx hw
          rcases List.mem_cons.mp hx with h1 | h2
          · exact h1
          · exact ih x h2 hw
      · simp only [collapseWs, if_neg hc]
        intro x hx hw
        rcases List.mem_cons.mp hx with h1 | h2
        · subst h1; exact absurd hw hc
        · exact ih x h2 hw

theorem chain'_collapseWs (s : List Char) : (collapseWs s).Chain' wsR := by
  induction s with
  | nil => simp [collapseWs]
  | cons c t ih =>
    cases t with
    | nil =>
      by_cases hc : isWs c <;> simp [collapseWs, hc]
    | cons d rest =>
      by_cases hc : isWs c
      · by_cases hd : isWs d
        · simpa [collapseWs, hc, hd] using ih
        · simp only [collapseWs, if_pos hc, if_neg hd]
          rw [collapseWs_cons_of_not_ws (by simpa using hd) rest] at ih ⊢
          exact List.chain'_cons.mpr ⟨fun h => absurd h.2 hd, ih⟩
      · simp only [collapseWs, if_neg hc]
        refine List.chain'_cons'.mpr ⟨fun y _ => ?_, ih⟩
        intro h
        exact hc (by simp [h.1])

theorem collapsed_collapseWs (s : List Char) : Collapsed (collapseWs s) :=
  ⟨mem_collapseWs_ws s, chain'_collapseWs s⟩

theorem collapseWs_eq_self {s : List Char} (h : Collapsed s) : collapseWs s = s := by
  induction s with
  | nil => rfl
  | cons c t ih =>
    cases t with
    | nil =>
      by_cases hc : isWs c
      · have : c = ' ' := h.1 c (by simp) hc
        simp [collapseWs, hc, this]
      · simp [collapseWs, hc]
    | cons d rest =>
      have hcd : wsR c d := (List.chain'_cons.mp h.2).1
      have htail : Collapsed (d :: rest) :=
        ⟨fun x hx => h.1 x (List.mem_cons_of_mem c hx), (List.chain'_cons.mp h.2).2⟩
      by_cases hc : isWs c
      · have hd : isWs d = false := by
          by_contra hd
          exact hcd ⟨hc, by simpa using hd⟩
        have hcsp : c = ' ' := h.1 c (by simp) hc
        simp only [collapseWs, if_pos hc, if_neg (by simp [hd] : ¬ isWs d = true)]
        rw [ih htail, hcsp]
      · simp only [collapseWs, if_neg hc]
        rw [ih htail]

theorem collapsed_dropWhile {s : List Char} (h : Collapsed s) :
    Collapsed (s.dropWhile isWs) := by
  obtain ⟨t, ht⟩ := List.dropWhile_suffix (l := s) isWs
  constructor
  · intro c hc
    exact h.1 c ((List.dropWhile_suffix isWs).sublist.mem hc)
  · have h2 := h.2
    rw [← ht] at h2
    exact (List.chain'_append.mp h2).2.1

theorem collapsed_reverse {s : List Char} (h : Collapsed s) : Collapsed s.reverse := by
  constructor
  · intro c hc
    exact h.1 c (List.mem_reverse.mp hc)
  · rw [List.chain'_reverse]
    exact h.2.imp (fun a b hab hba => hab ⟨hba.2, hba.1⟩)

theorem collapsed_stripWs {s : List Char} (h : Collapsed s) : Collapsed (stripWs s) :=
  collapsed_reverse (collapsed_dropWhile (collapsed_reverse (collapsed_dropWhile h)))

theorem dropWhile_self_idem (p : Char → Bool) (l : List Char) :
    (l.dropWhile p).dropWhile p = l.dropWhile p := by
  induction l with
  | nil => rfl
  | cons a l ih =>
    by_cases h : p a
    · simp [List.dropWhile_cons, h, ih]
    · simp [List.dropWhile_cons, h]

theorem head?_dropWhile_false (p : Char → Bool) (l : List Char) :
    ∀ c ∈ (l.dropWhile p).head?, p c = false := by
  induction l with
  | nil => simp
  | cons a l ih =>
    by_cases h : p a
    · simpa [List.dropWhile_cons, h] using ih
    · simp [List.dropWhile_cons, h]

theorem getLast?_dropWhile (p : Char → Bool) (l : List Char) (h : l.dropWhile p ≠ []) :
    (l.dropWhile p).getLast? = l.getLast? := by
  induction l with
  | nil => simp at h
  | cons a l ih =>
    by_cases hp : p a
    · rw [List.dropWhile_cons, if_pos hp] at h ⊢
      cases l with
      | nil => simp at h
      | cons b l2 =>
        rw [List.getLast?_cons_cons]
        exact ih h
    · rw [List.dropWhile_cons, if_neg hp]

theorem stripWs_idem (s : List Char) : stripWs (stripWs s) = stripWs s := by
  have hS : ∀ x ∈ (stripWs s).head?, isWs x = false := by
    intro x hx
    rw [stripWs, List.head?_reverse] at hx
    by_cases hnil : (s.dropWhile isWs).reverse.dropWhile isWs = []
    · rw [hnil] at hx; simp at hx
    · rw [getLast?_dropWhile isWs _ hnil, List.getLast?_reverse] at hx
      exact head?_dropWhile_false isWs s x hx
  have hA : (stripWs s).dropWhile isWs = stripWs s := by
    cases hu : stripWs s with
    | nil => rfl
    | cons x xs =>
      have hx : isWs x = false := by
        apply hS
        rw [hu]
        rfl
      rw [List.dropWhile_cons, if_neg (by simp [hx])]
  rw [stripWs, hA]
  show ((stripWs s).reverse.dropWhile isWs).reverse = stripWs s
  rw [stripWs, List.reverse_reverse, dropWhile_self_idem, ← stripWs]

theorem norm_idem (u : List Char) :
    stripWs (collapseWs (stripWs (collapseWs u))) = stripWs (collapseWs u) := by
  have h2 : Collapsed (stripWs (collapseWs u)) :=
    collapsed_stripWs (collapsed_collapseWs u)
  rw [collapseWs_eq_self h2, stripWs_idem]

theorem clean_idem_of_normal (l : List Char)
    (h1 : ':' ∉ clean l) (h2 : removeBrackets (clean l) = clean l) :
    clean (clean l) = clean l := by
  have h3 : colonStrip (clean l) = clean l := by
    simp only [colonStrip, if_neg h1]
  calc clean (clean l)
      = stripWs (collapseWs (removeBrackets (colonStrip (clean l)))) := rfl
    _ = stripWs (collapseWs (clean l)) := by rw [h3, h2]
    _ = clean l := norm_idem (removeBrackets (colonStrip l))

/-! ## Python exceptions and fallible calls

A Python call that may raise is embedded as `Except PyExc _`; a Python
function with no `return` on some path (falling off the end) returns
`Option` `none` for Python `None`. -/

/-- The exception values that matter to this service.
`invalidQueryParameterError` and `internalServerError` embed the two
classes imported from `utils.error_handler` (not part of the snapshot;
the classes are opaque tokens here).  `other msg` is any other exception,
with `msg` its `str(e)` text. -/
inductive PyExc where
  | invalidQueryParameterError
  | internalServerError
  | other (msg : String)
deriving DecidableEq

/-- `str(e)` for an embedded exception.  For the two named classes the
printed text is irrelevant to every claim; a fixed tag is used. -/
def PyExc.text : PyExc → String
  | .invalidQueryParameterError => "InvalidQueryParameterError"
  | .internalServerError => "InternalServerError"
  | .other msg => msg

def exceptToSum {ε α : Type} : Except ε α → Sum ε α
  | .error e => .inl e
  | .ok a => .inr a

instance {ε α : Type} [DecidableEq ε] [DecidableEq α] : DecidableEq (Except ε α) :=
  fun a b =>
    decidable_of_iff (exceptToSum a = exceptToSum b)
      (by cases a <;> cases b <;> simp [exceptToSum])

/-! ## ModelBackend: `KoalphaLoader.get_response`

Source (`src/models/koalpha_loader.py`, lines 39-103).  The two external
calls — `requests.post` in `"colab"` mode and
`tokenizer.apply_chat_template` / `self.model_vllm.generate` in `"gcp"`
mode — are oracles supplied by a `BackendEnv`; each may return a value or
raise. -/

/-- A chat message `{"role": ..., "content": ...}`. -/
structure Message where
  role : String
  content : String
deriving DecidableEq

/-- The result of `response.json()` when the body parses as JSON: `raw`
is the whole parsed body (flattened to its printed form, which is all the
code ever does with an error body), and `contentAt` is
`body["choices"][0]["message"]["content"]` when that path exists. -/
structure RespBody where
  raw : String
  contentAt : Option String
deriving DecidableEq

/-- An HTTP response as `requests` presents it: status code, final URL,
headers, the JSON-parsed body when parseable (`response.json()` raises
`ValueError` otherwise, embedded as `json = none`), and the raw text. -/
structure HttpResponse where
  status_code : Nat
  url : String
  headers : List (String × String)
  json : Option RespBody
  text : String
deriving DecidableEq

/-- The dict returned by `KoalphaLoader.get_response`: keys that a branch
does not set are `none` (`"headers"` only appears in the remote error
dict, `"content"` only on success, `"error"` only on failure). -/
structure InferenceResult where
  status_code : Nat
  url : String
  headers : Option (List (String × String))
  content : Option String
  error : Option String
deriving DecidableEq

/-- External collaborators of `KoalphaLoader.get_response`, each fallible:
`post` is `requests.post` on the chat-completions URL, `template` is the
chat-template flattening of the messages, `generate` is the local vllm
generation call on the flattened prompt. -/
structure BackendEnv where
  post : List Message → Except PyExc HttpResponse
  template : List Message → Except PyExc String
  generate : String → Except PyExc String

/-- The error body captured on a non-200 remote response:
`response.json()` if the body parses, else `response.text`. -/
def errorBodyOf (resp : HttpResponse) : String :=
  match resp.json with
  | some b => b.raw
  | none => resp.text

/-- `KoalphaLoader.get_response(messages)`.

`"colab"` branch: `requests.post` (uncaught if it raises); on a non-200
status return the error dict; on 200, `response.json()` (raises
`ValueError` on a non-JSON body, uncaught) and the
`body["choices"][0]["message"]["content"]` lookup (raises `KeyError` when
absent, uncaught).

`"gcp"` branch: chat-template flattening (outside the `try`, uncaught if
it raises); then the generation call inside `try/except`, converted on
exception into `{"status_code": 500, "url": "local_vllm", "error": str(e)}`.

Any other mode matches no branch: the function falls off the end and
returns Python `None`, embedded as `.ok none`. -/
def get_response (mode : String) (env : BackendEnv) (messages : List Message) :
    Except PyExc (Option InferenceResult) :=
  if mode = "colab" then
    match env.post messages with
    | .error e => .error e
    | .ok resp =>
      if resp.status_code ≠ 200 then
        .ok (some { status_code := resp.status_code, url := resp.url,
                    headers := some resp.headers, content := none,
                    error := some (errorBodyOf resp) })
      else
        match resp.json with
        | none => .error (.other "ValueError")
        | some body =>
          match body.contentAt with
          | none => .error (.other "KeyError")
          | some c =>
            .ok (some { status_code := resp.status_code, url := resp.url,
                        headers := none, content := some c, error := none })
  else if mode = "gcp" then
    match env.template messages with
    | .error e => .error e
    | .ok prompt =>
      match env.generate prompt with
      | .error e =>
        .ok (some { status_code := 500, url := "local_vllm",
                    headers := none, content := none, error := some e.text })
      | .ok content =>
        .ok (some { status_code := 200, url := "local_vllm",
                    headers := none, content := some content, error := none })
  else
    .ok none

/-! ## GenerationPipeline: `BotPostsService.generate_bot_post`

Source (`src/services/bot_posts_service.py`, lines 39-166).  The request
and response schemas, the bot-user info, the prompt builder
(`BotPostsPrompt.json_to_messages`), the Langfuse client and
`log_inference_to_langfuse` live outside `src/`; they enter the embedding
as opaque data and as fallible oracles in a `PipelineEnv`.  The
observable effects the claims are about — which steps ran, and what was
sent to the trace — are returned as an event list and a list of trace
updates. -/

/-- A prior post as the prompt builder consumes it (opaque payload). -/
structure PostItem where
  content : String
deriving DecidableEq

/-- The bot identity returned by `get_bot_user_info` (opaque payload). -/
structure UserInfo where
  nickname : String
deriving DecidableEq

/-- `BotPostsRequest`: board discriminator plus prior posts. -/
structure BotPostsRequest where
  board_type : String
  posts : List PostItem
deriving DecidableEq

/-- `BotPostResponseData`. -/
structure BotPostResponseData where
  board_type : String
  user : UserInfo
  content : String
deriving DecidableEq

/-- `BotPostsResponse`. -/
structure BotPostsResponse where
  message : String
  data : BotPostResponseData
deriving DecidableEq

/-- The steps of `generate_bot_post`, in the order the code runs them; an
event is recorded when the corresponding statement is reached. -/
inductive Event where
  | traceOpen
  | validate
  | promptBuild
  | inferenceCall
  | logOriginal
  | cleanStep
  | logCleaned
  | traceFinalize
  | buildResponse
deriving DecidableEq

/-- The context recorded by the generic exception handler:
`str(e)` plus the values of `messages` / `original_content` / `content`
when those locals exist at the point of failure
(`... if 'messages' in locals() else None`). -/
structure TraceErrorCtx where
  error : String
  messages : Option (List Message)
  original_content : Option String
  cleaned_content : Option String
deriving DecidableEq

/-- Updates sent to the Langfuse trace object after its creation. -/
inductive TraceUpd where
  | validationError
  | output (content : String)
  | errorCtx (ctx : TraceErrorCtx)
deriving DecidableEq

/-- Locals of `generate_bot_post` that the error handler inspects; a
field is `some` exactly when the corresponding Python local has been
assigned. -/
structure LocalsCtx where
  messages : Option (List Message) := none
  original_content : Option String := none
  content : Option String := none
deriving DecidableEq

/-- External collaborators of `generate_bot_post`, each fallible:
`traceOpen` is `self.langfuse.trace(...)`; `botUser` covers the prompt
object construction, the `self.model.loader.*` parameter reads and
`get_bot_user_info`; `jsonToMessages` is
`BotPostsPrompt.json_to_messages(posts, mode)` returning
`(prompt_client, messages)`; `getResp` is `self.model.get_response(...)`,
returning `none` for Python `None`; `logOriginal` / `logCleaned` are the
two `log_inference_to_langfuse` calls; `traceUpdateOutput` is
`trace.update(output=content)`. -/
structure PipelineEnv where
  traceOpen : Except PyExc Unit
  botUser : Except PyExc UserInfo
  jsonToMessages : List PostItem → Except PyExc (String × List Message)
  getResp : List Message → Except PyExc (Option InferenceResult)
  logOriginal : String → Except PyExc Unit
  logCleaned : String → Except PyExc Unit
  traceUpdateOutput : String → Except PyExc Unit

/-- The part of the `try` block after the post-count check, in source
order: prompt construction, inference call, raw-output logging, cleaning,
cleaned-output logging, `trace.update(output=...)`, response build.
Returns the outcome, the events reached, the trace updates sent, and the
locals assigned so far. -/
def tryBodyRest (env : PipelineEnv) (req : BotPostsRequest) :
    Except PyExc BotPostsResponse × List Event × List TraceUpd × LocalsCtx :=
  match env.botUser with
  | .error e => (.error e, [.promptBuild], [], {})
  | .ok user =>
  match env.jsonToMessages req.posts with
  | .error e => (.error e, [.promptBuild], [], {})
  | .ok (_prompt_client, messages) =>
  match env.getResp messages with
  | .error e => (.error e, [.promptBuild, .inferenceCall], [], { messages := some messages })
  | .ok none =>
    -- `model_response` is Python `None`; `None.get("content", "")` raises
    (.error (.other "AttributeError"), [.promptBuild, .inferenceCall], [],
     { messages := some messages })
  | .ok (some mr) =>
  -- `original_content = model_response.get("content", "")`
  match env.logOriginal (mr.content.getD "") with
  | .error e =>
    (.error e, [.promptBuild, .inferenceCall, .logOriginal], [],
     { messages := some messages, original_content := some (mr.content.getD "") })
  | .ok _ =>
  match env.logCleaned (clean_response (mr.content.getD "")) with
  | .error e =>
    (.error e, [.promptBuild, .inferenceCall, .logOriginal, .cleanStep, .logCleaned], [],
     { messages := some messages, original_content := some (mr.content.getD ""),
       content := some (clean_response (mr.content.getD "")) })
  | .ok _ =>
  match env.traceUpdateOutput (clean_response (mr.content.getD "")) with
  | .error e =>
    (.error e,
     [.promptBuild, .inferenceCall, .logOriginal, .cleanStep, .logCleaned, .traceFinalize], [],
     { messages := some messages, original_content := some (mr.content.getD ""),
       content := some (clean_response (mr.content.getD "")) })
  | .ok _ =>
    (.ok { message := "소셜봇이 게시물을 작성했습니다.",
           data := { board_type := req.board_type, user := user,
                     content := clean_response (mr.content.getD "") } },
     [.promptBuild, .inferenceCall, .logOriginal, .cleanStep, .logCleaned,
      .traceFinalize, .buildResponse],
     [.output (clean_response (mr.content.getD ""))],
     { messages := some messages, original_content := some (mr.content.getD ""),
       content := some (clean_response (mr.content.getD "")) })

/-- The whole `try` block: the post-count check runs first
(`if len(request.posts) < 5`), updating the trace and raising
`InvalidQueryParameterError` on failure, then `tryBodyRest`. -/
def tryBody (env : PipelineEnv) (req : BotPostsRequest) :
    Except PyExc BotPostsResponse × List Event × List TraceUpd × LocalsCtx :=
  if req.posts.length < 5 then
    (.error .invalidQueryParameterError, [.validate], [.validationError], {})
  else
    ((tryBodyRest env req).1, Event.validate :: (tryBodyRest env req).2.1,
     (tryBodyRest env req).2.2.1, (tryBodyRest env req).2.2.2)

/-- The two `except` clauses: `InvalidQueryParameterError` is re-raised
unchanged; any other exception is re-raised as `InternalServerError`. -/
def handleExc : Except PyExc BotPostsResponse → Except PyExc BotPostsResponse
  | .ok resp => .ok resp
  | .error .invalidQueryParameterError => .error .invalidQueryParameterError
  | .error _ => .error .internalServerError

/-- Trace updates added by the `except` clauses: the generic handler
appends `trace.update(status="error", error=str(e), metadata={...})` with
the locals available at the failure point; the
`InvalidQueryParameterError` clause adds nothing. -/
def handleUpds (res : Except PyExc BotPostsResponse) (upds : List TraceUpd)
    (loc : LocalsCtx) : List TraceUpd :=
  match res with
  | .ok _ => upds
  | .error .invalidQueryParameterError => upds
  | .error e =>
    upds ++ [.errorCtx { error := e.text, messages := loc.messages,
                         original_content := loc.original_content,
                         cleaned_content := loc.content }]

/-- `BotPostsService.generate_bot_post(request)`.

`self.langfuse.trace(...)` runs first, before the `try` block: if it
raises, the exception propagates as-is with nothing recorded.  Otherwise
the `try` block runs and the two `except` clauses map its outcome. -/
def generate_bot_post (env : PipelineEnv) (req : BotPostsRequest) :
    Except PyExc BotPostsResponse × List Event × List TraceUpd :=
  match env.traceOpen with
  | .error e => (.error e, [], [])
  | .ok _ =>
    (handleExc (tryBody env req).1,
     Event.traceOpen :: (tryBody env req).2.1,
     handleUpds (tryBody env req).1 (tryBody env req).2.2.1 (tryBody env req).2.2.2)

/-! ## `BotChatsService.generate_bot_chat`

Source (`src/services/bot_chats_service.py`, lines 13-34): the body
builds and returns a fixed dict; the `except` clause is unreachable. -/

/-- `BotChatsRequest`: chat room plus history (opaque to the service). -/
structure BotChatsRequest where
  chat_room_id : Nat
  messages : List Message
deriving DecidableEq

/-- The dict returned by `generate_bot_chat`. -/
structure BotChatsResult where
  status : String
  message : String
  data_content : String
deriving DecidableEq

/-- `BotChatsService.generate_bot_chat(request)`: returns the fixed
placeholder dict whatever the request contains. -/
def generate_bot_chat (_req : BotChatsRequest) : BotChatsResult :=
  { status := "success",
    message := "Bot chat message generated successfully",
    data_content := "임시 소셜봇 채팅 메시지입니다." }

/-! ## Concrete environments and requests used by witnesses and
counterexamples -/

/-- A concrete message list, as the prompt builder would produce it. -/
def msgsW : List Message :=
  [{ role := "system", content := "social bot persona" },
   { role := "user", content := "recent posts" }]

def fivePosts : List PostItem :=
  [{ content := "p1" }, { content := "p2" }, { content := "p3" },
   { content := "p4" }, { content := "p5" }]

def fourPosts : List PostItem :=
  [{ content := "p1" }, { content := "p2" }, { content := "p3" },
   { content := "p4" }]

def reqFive : BotPostsRequest := { board_type := "free", posts := fivePosts }

def reqFour : BotPostsRequest := { board_type := "free", posts := fourPosts }

/-- Backend stub of the end-to-end property: raw model output with a role
prefix, a bracketed span and repeated spaces. -/
def stubResult : InferenceResult :=
  { status_code := 200, url := "stub", headers := none,
    content := some "Bot: I agree! [laughs]   Great point.", error := none }

/-- A pipeline environment where every collaborator succeeds. -/
def stubEnv : PipelineEnv :=
  { traceOpen := .ok (),
    botUser := .ok { nickname := "bot" },
    jsonToMessages := fun _ => .ok ("bot_posts_prompt", msgsW),
    getResp := fun _ => .ok (some stubResult),
    logOriginal := fun _ => .ok (),
    logCleaned := fun _ => .ok (),
    traceUpdateOutput := fun _ => .ok () }

/-- As `stubEnv`, but the inference call raises. -/
def failRespEnv : PipelineEnv :=
  { stubEnv with getResp := fun _ => .error (.other "boom") }

/-- As `stubEnv`, but `self.langfuse.trace(...)` raises. -/
def downSinkEnv : PipelineEnv :=
  { stubEnv with traceOpen := .error (.other "langfuse unreachable") }

/-- As `stubEnv`, but the backend reports a failure: the returned dict
has no `"content"` key. -/
def noContentEnv : PipelineEnv :=
  { stubEnv with
    getResp := fun _ =>
      .ok (some { status_code := 503, url := "stub", headers := some [],
                  content := none, error := some "upstream error" }) }

/-- A failing remote HTTP response: status 503, non-JSON body. -/
def http503 : HttpResponse :=
  { status_code := 503, url := "https://host/v1/chat/completions",
    headers := [("content-type", "text/plain")], json := none,
    text := "Service Unavailable" }

/-- Backend environment: remote call answers 503, local generation
raises. -/
def backendFailEnv : BackendEnv :=
  { post := fun _ => .ok http503,
    template := fun _ => .ok "PROMPT",
    generate := fun _ => .error (.other "CUDA out of memory") }

/-- Backend environment where `requests.post` itself raises. -/
def backendRaiseEnv : BackendEnv :=
  { post := fun _ => .error (.other "ConnectionError"),
    template := fun _ => .ok "PROMPT",
    generate := fun _ => .ok "fine" }

/-! ## Helper lemmas about the exception wrapper -/

theorem handleExc_error_ne {e : PyExc} (h : e ≠ .invalidQueryParameterError) :
    handleExc (.error e) = .error .internalServerError := by
  cases e with
  | invalidQueryParameterError => exact absurd rfl h
  | internalServerError => rfl
  | other msg => rfl

theorem handleUpds_error_ne {e : PyExc} (h : e ≠ .invalidQueryParameterError)
    (upds : List TraceUpd) (loc : LocalsCtx) :
    handleUpds (.error e) upds loc =
      upds ++ [.errorCtx { error := e.text, messages := loc.messages,
                           original_content := loc.original_content,
                           cleaned_content := loc.content }] := by
  cases e with
  | invalidQueryParameterError => exact absurd rfl h
  | internalServerError => rfl
  | other msg => rfl

theorem validationError_not_mem_tryBodyRest (env : PipelineEnv) (req : BotPostsRequest) :
    TraceUpd.validationError ∉ (tryBodyRest env req).2.2.1 := by
  unfold tryBodyRest
  repeat' split
  all_goals simp

theorem validationError_mem_handleUpds {res : Except PyExc BotPostsResponse}
    {upds : List TraceUpd} {loc : LocalsCtx}
    (h : TraceUpd.validationError ∈ handleUpds res upds loc) :
    TraceUpd.validationError ∈ upds := by
  cases res with
  | ok r => exact h
  | error e =>
    cases e with
    | invalidQueryParameterError => exact h
    | internalServerError => simp [handleUpds] at h; exact h
    | other msg => simp [handleUpds] at h; exact h

/-! ## Claims -/

/-- C1 (counterexample): the cleaning transformation is not idempotent —
only the first colon is consumed, so on `"a: b: c"` the first pass keeps a
colon (`"b: c"`) and a second pass strips a further segment (`"c"`). -/
theorem clean_response_not_idempotent :
    clean_response (clean_response "a: b: c") ≠ clean_response "a: b: c" := by
  decide

/-- C1 (amended): the cleaning transformation is idempotent on every text
whose first pass is already normal, i.e. whenever one pass leaves no colon
and no bracketed span: if `clean x` contains no `':'` and bracket removal
leaves `clean x` unchanged, then `clean (clean x) = clean x`. -/
theorem clean_response_idem_of_normal (x : String)
    (h1 : ':' ∉ (clean_response x).data)
    (h2 : removeBrackets (clean_response x).data = (clean_response x).data) :
    clean_response (clean_response x) = clean_response x := by
  have hd : (clean_response x).data = clean x.data := rfl
  rw [hd] at h1 h2
  show String.mk (clean (clean x.data)) = String.mk (clean x.data)
  rw [clean_idem_of_normal x.data h1 h2]

/-- C1 (witness): the amended idempotence at the concrete input
`"Role: hi [ok] there"`, whose first pass `"hi there"` is normal. -/
theorem clean_response_idem_of_normal_witness :
    clean_response (clean_response "Role: hi [ok] there") =
      clean_response "Role: hi [ok] there" :=
  clean_response_idem_of_normal "Role: hi [ok] there" (by decide) (by decide)

/-- C2 (counterexample): an exception raised by the remote HTTP call
itself (`requests.post`) escapes `get_response` to the caller instead of
being converted into a structured InferenceResult. -/
theorem get_response_remote_raise_escapes :
    get_response "colab" backendRaiseEnv msgsW = .error (.other "ConnectionError") := by
  decide

/-- C2 (amended): both backend branches convert their own failure mode
into a structured InferenceResult with a non-success status code and a
populated error field — remote mode for every non-200 HTTP response
(keeping the response's status code and captured body), local mode for
every exception raised by the generation call (status_code 500, source
"local_vllm", the exception's text as error) — but an exception raised by
the remote HTTP call itself escapes `get_response` uncaught. -/
theorem get_response_structured_failure :
    (∀ (env : BackendEnv) (msgs : List Message) (resp : HttpResponse),
       env.post msgs = .ok resp → resp.status_code ≠ 200 →
       get_response "colab" env msgs =
         .ok (some { status_code := resp.status_code, url := resp.url,
                     headers := some resp.headers, content := none,
                     error := some (errorBodyOf resp) }))
    ∧ (∀ (env : BackendEnv) (msgs : List Message) (prompt : String) (e : PyExc),
       env.template msgs = .ok prompt → env.generate prompt = .error e →
       get_response "gcp" env msgs =
         .ok (some { status_code := 500, url := "local_vllm", headers := none,
                     content := none, error := some e.text })) := by
  constructor
  · intro env msgs resp hp hs
    simp [get_response, hp, hs]
  · intro env msgs prompt e ht hg
    have hmode : ¬ ("gcp" = "colab") := by decide
    simp [get_response, hmode, ht, hg]

/-- C2 (witness): remote 503 and a raising local generation, both turned
into structured failure results. -/
theorem get_response_structured_failure_witness :
    get_response "colab" backendFailEnv msgsW =
      .ok (some { status_code := 503, url := "https://host/v1/chat/completions",
                  headers := some [("content-type", "text/plain")],
                  content := none, error := some "Service Unavailable" })
    ∧ get_response "gcp" backendFailEnv msgsW =
      .ok (some { status_code := 500, url := "local_vllm", headers := none,
                  content := none, error := some "CUDA out of memory" }) :=
  ⟨get_response_structured_failure.1 backendFailEnv msgsW http503 rfl (by decide),
   get_response_structured_failure.2 backendFailEnv msgsW "PROMPT"
     (.other "CUDA out of memory") rfl rfl⟩

/-- C3 (counterexample): an exception raised during trace open — step 2
of the spec's pipeline — is not caught by the outer handler: it reaches
the caller as-is, not as an InternalError. -/
theorem generate_bot_post_trace_open_escapes :
    generate_bot_post downSinkEnv reqFive = (.error (.other "langfuse unreachable"), [], [])
    ∧ (generate_bot_post downSinkEnv reqFive).1 ≠ .error .internalServerError := by
  constructor
  · decide
  · decide

/-- C3 (amended): an InvalidInput validation failure is re-raised
unchanged with no error-context trace update; every other exception
raised inside the try block (validation through response build) is caught
by the single outer handler, recorded into the trace together with
whatever locals were available at the failure point, and re-raised as a
generic InternalError; an exception during trace open itself, which runs
before the try block, propagates unchanged.

The first two conjuncts are universal over the try block: *any* outcome
of `tryBody` — the whole of steps validation through response build, with
arbitrary collaborator behavior — that is an exception gets re-raised
unchanged when it is the InvalidInput kind, and otherwise wrapped into
InternalError with the locals available at the failure point recorded
into the trace.  The remaining conjuncts instantiate this at every
individual failure point of the try block: validation, prompt
construction/parameter reads (`botUser`), `json_to_messages`, the
inference call raising, the inference call returning Python `None` (the
`.get` AttributeError), the two logging calls, and
`trace.update(output=...)`. -/
theorem generate_bot_post_error_wrapping
    (env : PipelineEnv) (req : BotPostsRequest) (e : PyExc)
    (hopen : env.traceOpen = .ok ())
    (hne : e ≠ .invalidQueryParameterError) :
    ((tryBody env req).1 = .error e →
       (generate_bot_post env req).1 = .error .internalServerError
       ∧ (generate_bot_post env req).2.2 =
           (tryBody env req).2.2.1
             ++ [.errorCtx { error := e.text,
                             messages := (tryBody env req).2.2.2.messages,
                             original_content := (tryBody env req).2.2.2.original_content,
                             cleaned_content := (tryBody env req).2.2.2.content }])
    ∧ ((tryBody env req).1 = .error .invalidQueryParameterError →
       (generate_bot_post env req).1 = .error .invalidQueryParameterError
       ∧ (generate_bot_post env req).2.2 = (tryBody env req).2.2.1)
    ∧ (∀ req2 : BotPostsRequest, req2.posts.length < 5 →
       (generate_bot_post env req2).1 = .error .invalidQueryParameterError
       ∧ (generate_bot_post env req2).2.2 = [.validationError])
    ∧ (¬ req.posts.length < 5 → env.botUser = .error e →
       (generate_bot_post env req).1 = .error .internalServerError
       ∧ (generate_bot_post env req).2.2 =
           [.errorCtx { error := e.text, messages := none,
                        original_content := none, cleaned_content := none }])
    ∧ (¬ req.posts.length < 5 → ∀ u : UserInfo, env.botUser = .ok u →
       env.jsonToMessages req.posts = .error e →
       (generate_bot_post env req).1 = .error .internalServerError
       ∧ (generate_bot_post env req).2.2 =
           [.errorCtx { error := e.text, messages := none,
                        original_content := none, cleaned_content := none }])
    ∧ (¬ req.posts.length < 5 → ∀ (u : UserInfo) (pc : String) (msgs : List Message),
       env.botUser = .ok u → env.jsonToMessages req.posts = .ok (pc, msgs) →
       env.getResp msgs = .error e →
       (generate_bot_post env req).1 = .error .internalServerError
       ∧ (generate_bot_post env req).2.2 =
           [.errorCtx { error := e.text, messages := some msgs,
                        original_content := none, cleaned_content := none }])
    ∧ (¬ req.posts.length < 5 → ∀ (u : UserInfo) (pc : String) (msgs : List Message),
       env.botUser = .ok u → env.jsonToMessages req.posts = .ok (pc, msgs) →
       env.getResp msgs = .ok none →
       (generate_bot_post env req).1 = .error .internalServerError
       ∧ (generate_bot_post env req).2.2 =
           [.errorCtx { error := "AttributeError", messages := some msgs,
                        original_content := none, cleaned_content := none }])
    ∧ (¬ req.posts.length < 5 →
       ∀ (u : UserInfo) (pc : String) (msgs : List Message) (r : InferenceResult),
       env.botUser = .ok u → env.jsonToMessages req.posts = .ok (pc, msgs) →
       env.getResp msgs = .ok (some r) →
       env.logOriginal (r.content.getD "") = .error e →
       (generate_bot_post env req).1 = .error .internalServerError
       ∧ (generate_bot_post env req).2.2 =
           [.errorCtx { error := e.text, messages := some msgs,
                        original_content := some (r.content.getD ""),
                        cleaned_content := none }])
    ∧ (¬ req.posts.length < 5 →
       ∀ (u : UserInfo) (pc : String) (msgs : List Message) (r : InferenceResult),
       env.botUser = .ok u → env.jsonToMessages req.posts = .ok (pc, msgs) →
       env.getResp msgs = .ok (some r) →
       env.logOriginal (r.content.getD "") = .ok () →
       env.logCleaned (clean_response (r.content.getD "")) = .error e →
       (generate_bot_post env req).1 = .error .internalServerError
       ∧ (generate_bot_post env req).2.2 =
           [.errorCtx { error := e.text, messages := some msgs,
                        original_content := some (r.content.getD ""),
                        cleaned_content := some (clean_response (r.content.getD "")) }])
    ∧ (¬ req.posts.length < 5 →
       ∀ (u : UserInfo) (pc : String) (msgs : List Message) (r : InferenceResult),
       env.botUser = .ok u → env.jsonToMessages req.posts = .ok (pc, msgs) →
       env.getResp msgs = .ok (some r) →
       env.logOriginal (r.content.getD "") = .ok () →
       env.logCleaned (clean_response (r.content.getD "")) = .ok () →
       env.traceUpdateOutput (clean_response (r.content.getD "")) = .error e →
       (generate_bot_post env req).1 = .error .internalServerError
       ∧ (generate_bot_post env req).2.2 =
           [.errorCtx { error := e.text, messages := some msgs,
                        original_content := some (r.content.getD ""),
                        cleaned_content := some (clean_response (r.content.getD "")) }])
    ∧ (∀ (env2 : PipelineEnv) (e2 : PyExc), env2.traceOpen = .error e2 →
       generate_bot_post env2 req = (.error e2, [], [])) := by
  have hA : (PyExc.other "AttributeError") ≠ PyExc.invalidQueryParameterError := by decide
  refine ⟨?_, ?_, ?_, ?_, ?_, ?_, ?_, ?_, ?_, ?_, ?_⟩
  · intro h
    constructor <;>
      simp [generate_bot_post, hopen, h, handleExc_error_ne hne, handleUpds_error_ne hne]
  · intro h
    constructor <;> simp [generate_bot_post, hopen, h, handleExc, handleUpds]
  · intro req2 h2
    constructor <;> simp [generate_bot_post, hopen, tryBody, h2, handleExc, handleUpds]
  · intro hlen hu
    constructor <;>
      simp [generate_bot_post, hopen, tryBody, hlen, tryBodyRest, hu,
            handleExc_error_ne hne, handleUpds_error_ne hne]
  · intro hlen u hu hm
    constructor <;>
      simp [generate_bot_post, hopen, tryBody, hlen, tryBodyRest, hu, hm,
            handleExc_error_ne hne, handleUpds_error_ne hne]
  · intro hlen u pc msgs hu hm hresp
    constructor <;>
      simp [generate_bot_post, hopen, tryBody, hlen, tryBodyRest, hu, hm, hresp,
            handleExc_error_ne hne, handleUpds_error_ne hne]
  · intro hlen u pc msgs hu hm hresp
    constructor <;>
      simp [generate_bot_post, hopen, tryBody, hlen, tryBodyRest, hu, hm, hresp,
            handleExc_error_ne hA, handleUpds_error_ne hA, PyExc.text]
  · intro hlen u pc msgs r hu hm hresp hlog
    constructor <;>
      simp [generate_bot_post, hopen, tryBody, hlen, tryBodyRest, hu, hm, hresp,
            hlog, handleExc_error_ne hne, handleUpds_error_ne hne]
  · intro hlen u pc msgs r hu hm hresp hlog1 hlog2
    constructor <;>
      simp [generate_bot_post, hopen, tryBody, hlen, tryBodyRest, hu, hm, hresp,
            hlog1, hlog2, handleExc_error_ne hne, handleUpds_error_ne hne]
  · intro hlen u pc msgs r hu hm hresp hlog1 hlog2 hupd
    constructor <;>
      simp [generate_bot_post, hopen, tryBody, hlen, tryBodyRest, hu, hm, hresp,
            hlog1, hlog2, hupd, handleExc_error_ne hne, handleUpds_error_ne hne]
  · intro env2 e2 h
    simp [generate_bot_post, h]

/-- C3 (witness): with a raising inference call, the try block yields the
raised exception, and the caller sees a generic InternalError while the
trace records the exception text together with the messages local (the
only one assigned at that point). -/
theorem generate_bot_post_error_wrapping_witness :
    (generate_bot_post failRespEnv reqFive).1 = .error .internalServerError
    ∧ (generate_bot_post failRespEnv reqFive).2.2 =
        [.errorCtx { error := "boom", messages := some msgsW,
                     original_content := none, cleaned_content := none }] :=
  (generate_bot_post_error_wrapping failRespEnv reqFive (.other "boom") rfl
      (by decide)).1 (by decide)

/-- C4: with fewer than 5 prior posts the request fails with the
InvalidInput kind (`InvalidQueryParameterError`); with at least 5 the
validation gate does not reject (no validation-error trace update is ever
sent), whatever the downstream collaborators do. -/
theorem validation_gate (env : PipelineEnv) (req : BotPostsRequest)
    (hopen : env.traceOpen = .ok ()) :
    (req.posts.length < 5 →
       (generate_bot_post env req).1 = .error .invalidQueryParameterError)
    ∧ (5 ≤ req.posts.length →
       TraceUpd.validationError ∉ (generate_bot_post env req).2.2) := by
  constructor
  · intro h
    simp [generate_bot_post, hopen, tryBody, h, handleExc]
  · intro h
    have hlt : ¬ req.posts.length < 5 := by omega
    simp only [generate_bot_post, hopen, tryBody, if_neg hlt]
    intro hmem
    exact validationError_not_mem_tryBodyRest env req (validationError_mem_handleUpds hmem)

/-- C4 (witness): exactly 4 prior posts raise InvalidInput; exactly 5
pass the gate. -/
theorem validation_gate_witness :
    (generate_bot_post stubEnv reqFour).1 = .error .invalidQueryParameterError
    ∧ TraceUpd.validationError ∉ (generate_bot_post stubEnv reqFive).2.2 :=
  ⟨(validation_gate stubEnv reqFour rfl).1 (by decide),
   (validation_gate stubEnv reqFive rfl).2 (by decide)⟩

/-- C5: when the backend's InferenceResult has no content field, the
pipeline does not throw on that account: `original_content` becomes `""`
and the request flows on through cleaning and response building, ending
in a success response whose content is the cleaned empty string. -/
theorem missing_content_flows_through
    (env : PipelineEnv) (req : BotPostsRequest) (u : UserInfo) (pc : String)
    (msgs : List Message) (r : InferenceResult)
    (hopen : env.traceOpen = .ok ())
    (hlen : ¬ req.posts.length < 5)
    (huser : env.botUser = .ok u)
    (hmsgs : env.jsonToMessages req.posts = .ok (pc, msgs))
    (hresp : env.getResp msgs = .ok (some r))
    (hc : r.content = none)
    (hlog1 : env.logOriginal "" = .ok ())
    (hlog2 : env.logCleaned "" = .ok ())
    (hupd : env.traceUpdateOutput "" = .ok ()) :
    (generate_bot_post env req).1 =
      .ok { message := "소셜봇이 게시물을 작성했습니다.",
            data := { board_type := req.board_type, user := u, content := "" } }
    ∧ Event.cleanStep ∈ (generate_bot_post env req).2.1
    ∧ Event.buildResponse ∈ (generate_bot_post env req).2.1 := by
  have hgd : r.content.getD "" = "" := by rw [hc]; rfl
  have hcl : clean_response "" = "" := rfl
  refine ⟨?_, ?_, ?_⟩ <;>
    simp [generate_bot_post, hopen, tryBody, hlen, tryBodyRest, huser, hmsgs, hresp,
          hgd, hcl, hlog1, hlog2, hupd, handleExc, handleUpds]

/-- C5 (witness): a 503 backend result without content yields a success
response with empty content. -/
theorem missing_content_flows_through_witness :
    (generate_bot_post noContentEnv reqFive).1 =
      .ok { message := "소셜봇이 게시물을 작성했습니다.",
            data := { board_type := "free", user := { nickname := "bot" },
                      content := "" } }
    ∧ Event.cleanStep ∈ (generate_bot_post noContentEnv reqFive).2.1
    ∧ Event.buildResponse ∈ (generate_bot_post noContentEnv reqFive).2.1 :=
  missing_content_flows_through noContentEnv reqFive { nickname := "bot" }
    "bot_posts_prompt" msgsW
    { status_code := 503, url := "stub", headers := some [],
      content := none, error := some "upstream error" }
    rfl (by decide) rfl rfl rfl rfl rfl rfl rfl

/-- C6: end-to-end on the post pipeline — 5 valid prior posts and a
backend stub answering `"Bot: I agree! [laughs]   Great point."` produce
a final response whose content equals `"I agree! Great point."`. -/
theorem end_to_end_stub :
    (generate_bot_post stubEnv reqFive).1 =
      .ok { message := "소셜봇이 게시물을 작성했습니다.",
            data := { board_type := "free", user := { nickname := "bot" },
                      content := "I agree! Great point." } } := by
  decide

/-- C7: the colon rule consumes only up to and including the first colon
(`"Role: hello world"` → `"hello world"`, `"a: b: c"` → `"b: c"`), is a
no-op on any text without a colon, and the whole transformation is the
identity on already-clean input. -/
theorem clean_colon_first_only (s : String) (h : ':' ∉ s.data) :
    colonStrip s.data = s.data
    ∧ clean_response "Role: hello world" = "hello world"
    ∧ clean_response "a: b: c" = "b: c"
    ∧ clean_response "already clean" = "already clean" := by
  refine ⟨?_, by decide, by decide, by decide⟩
  simp [colonStrip, h]

/-- C7 (witness): the colon rule is a no-op on the colon-free text
`"no colon here"`. -/
theorem clean_colon_first_only_witness :
    colonStrip ("no colon here").data = ("no colon here").data
    ∧ clean_response "Role: hello world" = "hello world"
    ∧ clean_response "a: b: c" = "b: c"
    ∧ clean_response "already clean" = "already clean" :=
  clean_colon_first_only "no colon here" (by decide)

/-- C8 (counterexample): on a request with only 4 prior posts the trace
is opened — and even receives a validation-error update — although
validation rejects the request: the TraceRecord is opened and sent to the
sink before the prior-post count validation has been performed. -/
theorem trace_opened_before_validation :
    generate_bot_post stubEnv reqFour =
      (.error .invalidQueryParameterError,
       [Event.traceOpen, Event.validate],
       [TraceUpd.validationError]) := by
  decide

/-- C8 (amended): the pipeline opens the trace first and validates
second — for every request whose trace open succeeds, the step sequence
begins with trace open immediately followed by the prior-post count
validation. -/
theorem trace_open_precedes_validation (env : PipelineEnv) (req : BotPostsRequest)
    (h : env.traceOpen = .ok ()) :
    ∃ tl, (generate_bot_post env req).2.1 = Event.traceOpen :: Event.validate :: tl := by
  by_cases h5 : req.posts.length < 5
  · refine ⟨[], ?_⟩
    simp [generate_bot_post, h, tryBody, h5]
  · refine ⟨(tryBodyRest env req).2.1, ?_⟩
    simp [generate_bot_post, h, tryBody, h5]

/-- C8 (witness): the amended ordering on a concrete successful run. -/
theorem trace_open_precedes_validation_witness :
    ∃ tl, (generate_bot_post stubEnv reqFive).2.1 =
      Event.traceOpen :: Event.validate :: tl :=
  trace_open_precedes_validation stubEnv reqFive rfl

/-- C9: the chat variant performs no validation and no generation — every
request gets the same fixed placeholder response, with success status and
the fixed placeholder content, regardless of the chat history. -/
theorem generate_bot_chat_placeholder (req : BotChatsRequest) :
    generate_bot_chat req =
      { status := "success",
        message := "Bot chat message generated successfully",
        data_content := "임시 소셜봇 채팅 메시지입니다." } := rfl

/-- C10: constructed with a mode other than `"colab"` or `"gcp"`,
`get_response` matches no branch and returns Python `None` — no status
code, no content, no error — rather than a structured failure. -/
theorem get_response_unknown_mode (mode : String) (env : BackendEnv)
    (msgs : List Message) (h1 : mode ≠ "colab") (h2 : mode ≠ "gcp") :
    get_response mode env msgs = .ok none := by
  simp [get_response, h1, h2]

/-- C10 (witness): mode `"test"` yields Python `None`. -/
theorem get_response_unknown_mode_witness :
    get_response "test" backendFailEnv msgsW = .ok none :=
  get_response_unknown_mode "test" backendFailEnv msgsW (by decide) (by decide)
